import Mathlib

set_option maxHeartbeats 1000000
set_option maxRecDepth 4000
set_option linter.unusedVariables false

/-! Verification development for the dax-ai-data-collection curation app.

The development shallowly embeds:
  * the chat fallback router of `src/utils/apiUtils.js`, in both revisions
    present in the repository (the three-tier revision in
    `src/src/utils/apiUtils.js` and the later revision, the one exporting
    `correctDaxFormula`, which goes directly to the model APIs);
  * the data-loading and persistence wrappers of `src/utils/dataUtils.js`
    (`loadExamples`, `addExampleToFile`, `updateCorrectedDax`, `getSampleData`);
  * the add-example form logic of `src/components/AddExampleModal.jsx`;
  * the example-repository backend operations (retention cap, correction
    shift), which live in the `microstrategy-dax-api` submodule and are
    therefore modelled from the specification.

Network and file I/O is embedded by passing an explicit environment value
describing what each request would produce; JavaScript exceptions are
embedded as `Except`/`Option` results, and JS-absent (`undefined`) fields as
`Option` or as their JS-falsy defaults, as noted at each definition. -/

/-- Partition key for examples and endpoint routing: the three supported
migration paths (glossary of the spec; `MODEL_ENDPOINTS` keys in
`apiUtils.js`). -/
inductive ModelType
  | cognos
  | microstrategy
  | tableau
deriving DecidableEq, Repr

/-- String form of a model type, as interpolated into ids and URLs. -/
def modelTypeStr : ModelType → String
  | .cognos => "cognos"
  | .microstrategy => "microstrategy"
  | .tableau => "tableau"

/-- One chat turn, a role/content pair. -/
structure ChatMsg where
  role : String
  content : String
deriving DecidableEq, Repr

/-- The normalized reply carried by every tier's response. -/
structure ChatReply where
  role : String
  content : String
deriving DecidableEq, Repr

/-- The normalized response shape every chat tier resolves with:
an object holding a single `reply` turn. -/
structure ChatResponse where
  reply : ChatReply
deriving DecidableEq, Repr

/-- Canned mock reply of `mockChatResponse` chosen when the latest user turn
contains "var" (`src/utils/apiUtils.js`). -/
def varMockReply : String :=
  "Here\x27s the DAX formula using VAR for better readability:\n\n```dax\nVAR TotalRevenue = SUM([Revenue])\nVAR TotalUnits = SUM([Units])\nRETURN\n    DIVIDE(TotalRevenue, TotalUnits)\n```\n\nThis approach stores intermediate calculations in variables, making the formula easier to read and maintain."

/-- Canned mock reply chosen when the latest user turn contains
"optimize". -/
def optimizeMockReply : String :=
  "Here\x27s an optimized version of the DAX formula:\n\n```dax\nCALCULATE(\n    DIVIDE(SUM([Revenue]), SUM([Units])),\n    REMOVEFILTERS()\n)\n```\n\nThis version uses CALCULATE with REMOVEFILTERS for better performance in certain scenarios."

/-- Canned mock reply chosen when neither keyword matches. -/
def defaultMockReply : String :=
  "I understand you want to refine the DAX formula. Here\x27s an improved version:\n\n```dax\nSUMX(\n    VALUES(Sales[ProductKey]),\n    DIVIDE([Revenue], [Units])\n)\n```\n\nThis uses SUMX for row-by-row calculation which can be more accurate for this type of division."

/-- Occurrence of `pat` as a contiguous run of `l`, by checking a prefix
match at every position; structurally recursive so concrete inputs
evaluate. -/
def hasSublist (pat : List Char) : List Char → Bool
  | [] => pat.isEmpty
  | c :: rest => pat.isPrefixOf (c :: rest) || hasSublist pat rest

/-- Boolean substring test mirroring the JavaScript
`String.prototype.includes` call. -/
def jsIncludes (s pat : String) : Bool :=
  hasSublist pat.data s.data

/-- Lower-casing of JavaScript `String.prototype.toLowerCase`, written over
the character list so concrete inputs evaluate. -/
def jsToLower (s : String) : String :=
  String.mk (s.data.map Char.toLower)

/-- Embedding of `mockChatResponse(modelType, messages)`: the deterministic
local mock tier. The source resolves after a random delay, which does not
affect the resolved value; `messages[messages.length - 1]?.content || ""`
is the last turn's content, or the empty string when the list is empty. -/
def mockChatResponse (modelType : ModelType) (messages : List ChatMsg) : ChatResponse :=
  let lastUserMessage := (messages.getLast?.map (fun m => m.content)).getD ""
  let mockReply :=
    if jsIncludes (jsToLower lastUserMessage) "var" then varMockReply
    else if jsIncludes (jsToLower lastUserMessage) "optimize" then optimizeMockReply
    else defaultMockReply
  { reply := { role := "assistant", content := mockReply } }

/-- The `reply` field of a direct-endpoint response body; its `content` may
be absent. -/
structure ReplyField where
  content : Option String
deriving DecidableEq, Repr

/-- A `choices[i].message` object of an OpenAI-style response body. -/
structure UpstreamMessage where
  content : String
deriving DecidableEq, Repr

/-- A `choices[i]` element; `message` may be absent, in which case the
unchecked access in the source throws. -/
structure UpstreamChoice where
  message : Option UpstreamMessage
deriving DecidableEq, Repr

/-- The parsed body of a direct-endpoint response (`response.data`). Each
field is `none` when absent from the JSON; `rawJson` is the
`JSON.stringify` rendering of the whole body, used by the final fallback
branch. -/
structure UpstreamData where
  reply : Option ReplyField
  choices : Option (List UpstreamChoice)
  generated_text : Option String
  response : Option String
  output : Option String
  rawJson : String
deriving DecidableEq, Repr

/-- JavaScript truthiness of an optional string field: absent and the empty
string are falsy. -/
def jsTruthy : Option String → Bool
  | none => false
  | some s => !(s == "")

/-- Truthiness of `data.reply && data.reply.content`. -/
def replyTruthy (d : UpstreamData) : Bool :=
  match d.reply with
  | some r => jsTruthy r.content
  | none => false

/-- The element `data.choices[0]` when `data.choices && data.choices[0]`
is truthy (an array is truthy in JS, so only presence of element 0
matters), else `none`. -/
def choicesFirst (d : UpstreamData) : Option UpstreamChoice :=
  match d.choices with
  | some (c :: _) => some c
  | _ => none

/-- Response-format adaptation chain of `sendChatMessageDirect`: the
if/else chain over `reply.content`, `choices[0].message.content`,
`generated_text`, `response`, `output`, with `JSON.stringify(data)` as the
final fallback. The unchecked access `choices[0].message.content` throws a
TypeError when `message` is absent; that thrown path is the `.error`
case. -/
def adaptContent (d : UpstreamData) : Except String String :=
  if replyTruthy d then
    .ok ((d.reply.bind (fun r => r.content)).getD "")
  else
    match choicesFirst d with
    | some c =>
      match c.message with
      | some m => .ok m.content
      | none => .error "TypeError: cannot read content of undefined"
    | none =>
      if jsTruthy d.generated_text then .ok (d.generated_text.getD "")
      else if jsTruthy d.response then .ok (d.response.getD "")
      else if jsTruthy d.output then .ok (d.output.getD "")
      else .ok d.rawJson

/-- Environment of one `send` call: what the gateway request and the direct
model-endpoint request would each produce. `none` stands for any axios
rejection — timeout, connection refused, or a non-2xx status — whose
distinct error messages are irrelevant here. -/
structure ChatEnv where
  gateway : Option ChatResponse
  direct : Option UpstreamData
deriving DecidableEq, Repr

/-- Embedding of `sendChatMessage(modelType, messages)`: posts to the shared
gateway `/api/v1/chat` and returns `response.data` unchanged, or throws a
wrapped error. -/
def sendChatMessage (modelType : ModelType) (messages : List ChatMsg) (env : ChatEnv) :
    Except String ChatResponse :=
  match env.gateway with
  | some data => .ok data
  | none => .error "No response from server. Please check if the backend is running."

/-- Embedding of `sendChatMessageDirect(modelType, messages)`: posts to the
per-model endpoint, adapts whichever response shape is present into
`\x7breply: \x7brole: \x22assistant\x22, content\x7d\x7d`, and throws when
the request fails or the adaptation itself throws. -/
def sendChatMessageDirect (modelType : ModelType) (messages : List ChatMsg) (env : ChatEnv) :
    Except String ChatResponse :=
  match env.direct with
  | none =>
    .error ("No response from " ++ modelTypeStr modelType ++
      " model API. Please check if it\x27s running.")
  | some data =>
    match adaptContent data with
    | .ok content => .ok { reply := { role := "assistant", content := content } }
    | .error e => .error ("Request error: " ++ e)

/-- Embedding of `sendChatMessageWithFallback` as defined in
`src/src/utils/apiUtils.js`: gateway first, then the direct model API, then
the mock. -/
def sendChatMessageWithFallback (modelType : ModelType) (messages : List ChatMsg)
    (env : ChatEnv) : ChatResponse :=
  match sendChatMessage modelType messages env with
  | .ok r => r
  | .error _ =>
    match sendChatMessageDirect modelType messages env with
    | .ok r => r
    | .error _ => mockChatResponse modelType messages

/-- Embedding of the later revision of `sendChatMessageWithFallback` (the
file also exporting `correctDaxFormula`), whose comment reads "goes
directly to model APIs (no gateway)": direct model API first, then the
mock; the gateway is never contacted. -/
def sendChatMessageWithFallbackNoGateway (modelType : ModelType) (messages : List ChatMsg)
    (env : ChatEnv) : ChatResponse :=
  match sendChatMessageDirect modelType messages env with
  | .ok r => r
  | .error _ => mockChatResponse modelType messages

/-- The three delivery tiers of the chat router. -/
inductive Tier
  | gateway
  | direct
  | mock
deriving DecidableEq, Repr

/-- Instrumentation of `sendChatMessageWithFallback` (three-tier revision):
the tiers its control flow attempts, in order. A tier is attempted exactly
when every earlier tier threw. -/
def fallbackAttempts (modelType : ModelType) (messages : List ChatMsg) (env : ChatEnv) :
    List Tier :=
  match sendChatMessage modelType messages env with
  | .ok _ => [Tier.gateway]
  | .error _ =>
    match sendChatMessageDirect modelType messages env with
    | .ok _ => [Tier.gateway, Tier.direct]
    | .error _ => [Tier.gateway, Tier.direct, Tier.mock]

/-- Instrumentation of the no-gateway revision of
`sendChatMessageWithFallback`: the tiers its control flow attempts, in
order. -/
def fallbackAttemptsNoGateway (modelType : ModelType) (messages : List ChatMsg)
    (env : ChatEnv) : List Tier :=
  match sendChatMessageDirect modelType messages env with
  | .ok _ => [Tier.direct]
  | .error _ => [Tier.direct, Tier.mock]

/-- Specification-level attempt fold (spec §9): given the ordered network
tiers with their outcomes, the attempted tiers are the failing prefix
followed by the first succeeding tier, with the mock as the terminal tier
that always succeeds. -/
def firstOkAttempts : List (Tier × Option ChatResponse) → List Tier
  | [] => [Tier.mock]
  | (t, some _) :: _ => [t]
  | (t, none) :: rest => t :: firstOkAttempts rest

/-- Specification-level result fold: the value of the first succeeding
tier, or the mock fallback when every network tier fails. -/
def firstOkValue : List (Tier × Option ChatResponse) → ChatResponse → ChatResponse
  | [], fallback => fallback
  | (_, some r) :: _, _ => r
  | (_, none) :: rest, fallback => firstOkValue rest fallback

/-- The ordered network-tier outcomes named by the claim: the shared
gateway first, then the per-model direct endpoint. -/
def tierOutcomes (modelType : ModelType) (messages : List ChatMsg) (env : ChatEnv) :
    List (Tier × Option ChatResponse) :=
  [(Tier.gateway, (sendChatMessage modelType messages env).toOption),
   (Tier.direct, (sendChatMessageDirect modelType messages env).toOption)]

/-- The attempt order the claim states for `send`: gateway, then direct,
then mock, short-circuiting on the first success. -/
def claimedAttempts (modelType : ModelType) (messages : List ChatMsg) (env : ChatEnv) :
    List Tier :=
  firstOkAttempts (tierOutcomes modelType messages env)

/-- The network-tier outcome list of the no-gateway revision: the direct
endpoint only. -/
def directTierOutcomes (modelType : ModelType) (messages : List ChatMsg) (env : ChatEnv) :
    List (Tier × Option ChatResponse) :=
  [(Tier.direct, (sendChatMessageDirect modelType messages env).toOption)]

/-- One curated formula pair (spec §3). JS-absent fields are modelled by
their JS-falsy defaults: empty string for the formula fields, `none` for
the score, `false` for the flags. The React code spells the score field
`confidence_score`. -/
structure Example where
  id : String
  sourceExpression : String
  targetDaxFormula : String
  correctedDaxFormula : String
  previousDaxFormula : String
  confidenceScore : Option Rat
  isUserAdded : Bool
  isDummyData : Bool
deriving DecidableEq, Repr

/-- A record as parsed from an API or file response inside `loadExamples`,
before the mapping the loader applies. `correctedDaxFormula` and
`previousDaxFormula` keep their possible absence, since the loader's
`correctedDaxFormula || \x22\x22` normalization reads it. -/
structure RawExample where
  id : String
  sourceExpression : String
  targetDaxFormula : String
  correctedDaxFormula : Option String
  previousDaxFormula : Option String
  confidenceScore : Option Rat
  isUserAdded : Bool
  isDummyData : Bool
deriving DecidableEq, Repr

/-- One entry of the `sampleData` table in `getSampleData`
(`src/utils/dataUtils.js`): the seed records carry only these three
fields. -/
structure SampleSeed where
  id : String
  sourceExpression : String
  targetDaxFormula : String
deriving DecidableEq, Repr

/-- The `sampleData` table of `getSampleData`, keyed by model type. An
unknown key falls back to the cognos entries in the source; the model-type
embedding covers exactly the three known keys. -/
def sampleSeeds : ModelType → List SampleSeed
  | .cognos =>
    [{ id := "cognos-001",
       sourceExpression := "[Sales].[Revenue] / [Sales].[Units]",
       targetDaxFormula := "DIVIDE([Revenue], [Units])" },
     { id := "cognos-002",
       sourceExpression := "if ([Product].[Category] = \x27Electronics\x27) then ([Sales].[Revenue]) else (0)",
       targetDaxFormula := "IF([Category] = \"Electronics\", [Revenue], 0)" },
     { id := "cognos-003",
       sourceExpression := "total([Sales].[Revenue] for [Time].[Year])",
       targetDaxFormula := "CALCULATE(SUM([Revenue]), ALLEXCEPT(Sales, Sales[Year]))" }]
  | .microstrategy =>
    [{ id := "mstr-001",
       sourceExpression := "Sum(Revenue)\x7b~+\x7d",
       targetDaxFormula := "SUMX(ALL(Sales), [Revenue])" },
     { id := "mstr-002",
       sourceExpression := "Case((Category = \"Electronics\"), Revenue, 0)",
       targetDaxFormula := "SWITCH([Category], \"Electronics\", [Revenue], 0)" },
     { id := "mstr-003",
       sourceExpression := "RunningSum(Revenue)",
       targetDaxFormula := "CALCULATE(SUM([Revenue]), FILTER(ALL(Sales), Sales[Date] <= MAX(Sales[Date])))" }]
  | .tableau =>
    [{ id := "tableau-001",
       sourceExpression := "SUM([Revenue]) / SUM([Units])",
       targetDaxFormula := "DIVIDE(SUM([Revenue]), SUM([Units]))" },
     { id := "tableau-002",
       sourceExpression := "IF [Category] = \"Electronics\" THEN [Revenue] ELSE 0 END",
       targetDaxFormula := "IF([Category] = \"Electronics\", [Revenue], 0)" },
     { id := "tableau-003",
       sourceExpression := "WINDOW_SUM(SUM([Revenue]))",
       targetDaxFormula := "CALCULATE(SUM([Revenue]), FILTER(ALL(Sales), Sales[RowNumber] <= MAX(Sales[RowNumber])))" }]

/-- Embedding of `getSampleData(modelType, isDummyData)`
(`src/utils/dataUtils.js`): maps the seed table, setting
`correctedDaxFormula` to the empty string, the `isDummyData` flag to the
argument (the source defaults it to `false`), and `isUserAdded` to
`false`. -/
def getSampleData (modelType : ModelType) (isDummyData : Bool) : List Example :=
  (sampleSeeds modelType).map (fun e =>
    { id := e.id,
      sourceExpression := e.sourceExpression,
      targetDaxFormula := e.targetDaxFormula,
      correctedDaxFormula := "",
      previousDaxFormula := "",
      confidenceScore := none,
      isUserAdded := false,
      isDummyData := isDummyData })

/-- Outcome of one `apiCall` fetch inside `loadExamples`: `ok` is a 2xx
response whose JSON body parsed; `httpError` a completed non-2xx response;
`networkError` any thrown error (abort/timeout, connection failure, or a
body that fails to parse), which jumps to the enclosing catch. -/
inductive FetchOutcome
  | ok (data : List RawExample)
  | httpError
  | networkError
deriving DecidableEq, Repr

/-- Environment of one `loadExamples` call: what the per-model API request
and the static-file request (`/data/...-examples.json`) would produce. -/
structure LoadEnv where
  api : FetchOutcome
  file : FetchOutcome
deriving DecidableEq, Repr

/-- The per-record mapping `loadExamples` applies to a loaded collection:
spread of the record with `correctedDaxFormula: example.correctedDaxFormula
|| \x22\x22` and `isUserAdded: false`. Every other field, `isDummyData`
included, is carried through by the spread. -/
def mapLoaded (data : List RawExample) : List Example :=
  data.map (fun e =>
    { id := e.id,
      sourceExpression := e.sourceExpression,
      targetDaxFormula := e.targetDaxFormula,
      correctedDaxFormula := e.correctedDaxFormula.getD "",
      previousDaxFormula := e.previousDaxFormula.getD "",
      confidenceScore := e.confidenceScore,
      isUserAdded := false,
      isDummyData := e.isDummyData })

/-- Embedding of `loadExamples(modelType)` (`src/utils/dataUtils.js`): try
the per-model API; on a non-OK response try the static file; on a non-OK
file response, or on any thrown error, return the sample data flagged as
dummy. -/
def loadExamples (modelType : ModelType) (env : LoadEnv) : List Example :=
  match env.api with
  | .ok data => mapLoaded data
  | .httpError =>
    match env.file with
    | .ok data => mapLoaded data
    | .httpError => getSampleData modelType true
    | .networkError => getSampleData modelType true
  | .networkError => getSampleData modelType true

/-- Truth of "this fetch produced no usable collection": it either threw or
completed with a non-OK status. -/
def fetchFailed : FetchOutcome → Bool
  | .ok _ => false
  | .httpError => true
  | .networkError => true

/-- Whitespace trimming of JavaScript `String.prototype.trim`, written as
an executable definition over the character list: drop whitespace from both
ends. -/
def jsTrim (s : String) : String :=
  String.mk (((s.data.dropWhile Char.isWhitespace).reverse.dropWhile
    Char.isWhitespace).reverse)

/-- Embedding of `validateForm` in `AddExampleModal.jsx`: the form is valid
exactly when both fields are non-empty after trimming whitespace (an empty
trim sets the corresponding error message). -/
def validateForm (sourceExpression targetDaxFormula : String) : Bool :=
  !(jsTrim sourceExpression == "") && !(jsTrim targetDaxFormula == "")

/-- Embedding of `handleSubmit` in `AddExampleModal.jsx`: when validation
fails the submit returns without creating anything; otherwise it builds the
new example with `id = modelType + \x22-\x22 + Date.now()`, the trimmed
field values, and an empty `correctedDaxFormula`. The source object literal
carries only those four fields; the remaining fields are their JS-falsy
defaults — in particular the add flow never sets `isUserAdded`. -/
def handleSubmit (modelType : ModelType) (sourceExpression targetDaxFormula : String)
    (timestampMs : Nat) : Option Example :=
  if validateForm sourceExpression targetDaxFormula then
    some { id := modelTypeStr modelType ++ "-" ++ toString timestampMs,
           sourceExpression := jsTrim sourceExpression,
           targetDaxFormula := jsTrim targetDaxFormula,
           correctedDaxFormula := "",
           previousDaxFormula := "",
           confidenceScore := none,
           isUserAdded := false,
           isDummyData := false }
  else none

/-- The parsed JSON body of a write-endpoint response: `message` is read on
the OK path, `detail` on the non-OK path. -/
structure WriteBody where
  message : String
  detail : String
deriving DecidableEq, Repr

/-- Body outcome of a completed response: `parsed`, or `parseError` when
`response.json()` rejects (the caught error's message is carried). -/
inductive BodyOutcome
  | parsed (b : WriteBody)
  | parseError (errMessage : String)
deriving DecidableEq, Repr

/-- Outcome of one write-endpoint request: a completed response with an OK
flag and a body outcome, or a thrown network error (abort/timeout or
connection failure) with its message. -/
inductive HttpOutcome
  | response (ok : Bool) (body : BodyOutcome)
  | networkError (errMessage : String)
deriving DecidableEq, Repr

/-- Result object both persistence wrappers resolve with. -/
structure WriteResult where
  success : Bool
  message : String
deriving DecidableEq, Repr

/-- Embedding of `addExampleToFile(modelType, example)`
(`src/utils/dataUtils.js`): posts to `/api/examples/add` and maps every
outcome to a `\x7bsuccess, message\x7d` object — it never rethrows. A body
that fails to parse throws inside the try and is caught, yielding
`success: false` with the error's message. -/
def addExampleToFile (modelType : ModelType) (newExample : Example) (env : HttpOutcome) :
    WriteResult :=
  match env with
  | .networkError errMessage => { success := false, message := errMessage }
  | .response true (.parsed b) => { success := true, message := b.message }
  | .response true (.parseError m) => { success := false, message := m }
  | .response false (.parsed b) => { success := false, message := b.detail }
  | .response false (.parseError m) => { success := false, message := m }

/-- Embedding of `updateCorrectedDax(modelType, exampleId,
correctedDaxFormula)` (`src/utils/dataUtils.js`): posts to
`/api/examples/update-correction` — the request body carries exactly those
three fields — and maps every outcome to `\x7bsuccess, message\x7d` the
same way `addExampleToFile` does. -/
def updateCorrectedDax (modelType : ModelType) (exampleId correctedDaxFormula : String)
    (env : HttpOutcome) : WriteResult :=
  match env with
  | .networkError errMessage => { success := false, message := errMessage }
  | .response true (.parsed b) => { success := true, message := b.message }
  | .response true (.parseError m) => { success := false, message := m }
  | .response false (.parsed b) => { success := false, message := b.detail }
  | .response false (.parseError m) => { success := false, message := m }

/-- Truth of "the request completed with an OK (2xx) response". -/
def completedOk : HttpOutcome → Bool
  | .response true _ => true
  | .response false _ => false
  | .networkError _ => false

/-- Truth of "the request completed with an OK response whose body parsed
as JSON". -/
def completedOkParsed : HttpOutcome → Bool
  | .response true (.parsed _) => true
  | .response true (.parseError _) => false
  | .response false _ => false
  | .networkError _ => false

/-- Modelled from the spec: the update-correction route of the example
repository (file_management_routes.py in the microstrategy-dax-api
submodule) is not under src/. Per §4.2 it looks the example up by id
(failing with NotFound if absent), shifts the current
`correctedDaxFormula` into `previousDaxFormula`, sets the new
`correctedDaxFormula`, and sets `confidenceScore` only when one is
supplied, else leaves the existing score unchanged. -/
def applyCorrection (newDax : String) (score : Option Rat) (x : Example) : Example :=
  { x with
    previousDaxFormula := x.correctedDaxFormula,
    correctedDaxFormula := newDax,
    confidenceScore := match score with | some s => some s | none => x.confidenceScore }

/-- Modelled from the spec: the stored-collection effect of the
update-correction route (see `applyCorrection`); the record with the given
id is replaced by its corrected version, every other record is left as it
is. -/
def updateCorrection (coll : List Example) (exampleId newDax : String)
    (score : Option Rat) : Except String (List Example) :=
  if coll.any (fun x => x.id == exampleId) then
    .ok (coll.map (fun x => if x.id == exampleId then applyCorrection newDax score x else x))
  else .error "NotFound"

/-- Modelled from the spec: the retention cap of the add-example route
(file_management_routes.py in the microstrategy-dax-api submodule, not
under src/; see also MICROSTRATEGY_DAX_API_INTEGRATION.md, "Latest 10
limit"). A collection is trimmed to its newest 10 records, oldest-first by
creation order. -/
def applyRetentionCap (coll : List Example) : List Example :=
  if coll.length > 10 then coll.drop (coll.length - 10) else coll

/-- Modelled from the spec: the stored-collection effect of the
add-example route — append the new record, then apply the retention cap
(§4.2: evict oldest if count exceeds 10). -/
def addExampleBackend (coll : List Example) (newExample : Example) : List Example :=
  applyRetentionCap (coll ++ [newExample])

/-- A gateway response used by concrete environments: what the shared
gateway would reply when reachable. -/
def gatewayWouldReply : ChatResponse :=
  { reply := { role := "assistant", content := "gateway reply" } }

/-- An OpenAI-shaped direct-endpoint body, exactly the one named by the
spec's fallback-ordering property. -/
def openAIUpstream : UpstreamData :=
  { reply := none,
    choices := some [{ message := some { content := "X" } }],
    generated_text := none,
    response := none,
    output := none,
    rawJson := "" }

/-- A concrete environment in which both the gateway and the direct
endpoint would succeed. -/
def c1Env : ChatEnv :=
  { gateway := some gatewayWouldReply, direct := some openAIUpstream }

/-- A concrete stored example whose correction is "A". -/
def c3Example : Example :=
  { id := "cognos-001",
    sourceExpression := "[Sales].[Revenue] / [Sales].[Units]",
    targetDaxFormula := "DIVIDE([Revenue], [Units])",
    correctedDaxFormula := "A",
    previousDaxFormula := "",
    confidenceScore := none,
    isUserAdded := false,
    isDummyData := false }

/-- A small concrete example used to populate collections. -/
def c4Entry (n : Nat) : Example :=
  { id := "ex-" ++ toString n,
    sourceExpression := "src",
    targetDaxFormula := "tgt",
    correctedDaxFormula := "",
    previousDaxFormula := "",
    confidenceScore := none,
    isUserAdded := false,
    isDummyData := false }

/-- A concrete full collection of 10 examples, oldest first. -/
def c4Coll : List Example := (List.range 10).map (fun n => c4Entry (n + 1))

/-- The 11th example inserted into the full collection. -/
def c4New : Example := c4Entry 11

/-- A concrete stored example carrying a confidence score. -/
def c9Example : Example :=
  { id := "mstr-001",
    sourceExpression := "Sum(Revenue)",
    targetDaxFormula := "SUM([Revenue])",
    correctedDaxFormula := "OLD",
    previousDaxFormula := "",
    confidenceScore := some ((17 : Rat) / 20),
    isUserAdded := false,
    isDummyData := false }

/-- A persisted user-added record as the backend would return it on a
subsequent listing: `isUserAdded` stored as true. -/
def storedAddedRaw : RawExample :=
  { id := "cognos-1700000000000",
    sourceExpression := "SUM(Revenue)",
    targetDaxFormula := "SUM([Revenue])",
    correctedDaxFormula := some "",
    previousDaxFormula := none,
    confidenceScore := none,
    isUserAdded := true,
    isDummyData := false }

/-- A completed OK response whose body fails to parse as JSON. -/
def parseFailEnv : HttpOutcome :=
  HttpOutcome.response true (BodyOutcome.parseError "Unexpected end of JSON input")

/-- A concrete example for exercising the write wrappers. -/
def c10Example : Example :=
  { id := "cognos-42",
    sourceExpression := "s",
    targetDaxFormula := "t",
    correctedDaxFormula := "",
    previousDaxFormula := "",
    confidenceScore := none,
    isUserAdded := false,
    isDummyData := false }

/-- The mock tier's reply content is always one of the three canned
strings, none of which is empty. -/
theorem mock_reply_content_ne_empty (modelType : ModelType) (messages : List ChatMsg) :
    (mockChatResponse modelType messages).reply.content ≠ "" := by
  simp only [mockChatResponse]
  split
  · decide
  · split
    · decide
    · decide

/-- Updating each record matching an id commutes with looking the id up,
provided the update preserves ids. -/
theorem find?_map_ite (coll : List Example) (exampleId : String) (f : Example → Example)
    (hf : ∀ x, (f x).id = x.id) :
    (coll.map (fun x => if x.id == exampleId then f x else x)).find? (fun x => x.id == exampleId)
      = (coll.find? (fun x => x.id == exampleId)).map f := by
  induction coll with
  | nil => rfl
  | cons a t ih =>
    cases hb : (a.id == exampleId) with
    | false =>
      have hga : (if a.id == exampleId then f a else a) = a := by simp [hb]
      simp only [List.map_cons, hga]
      rw [List.find?_cons_of_neg _ (by simp [hb]), List.find?_cons_of_neg _ (by simp [hb]), ih]
    | true =>
      have hga : (if a.id == exampleId then f a else a) = f a := by simp [hb]
      simp only [List.map_cons, hga]
      have hcons : List.find? (fun x => x.id == exampleId) (a :: t) = some a :=
        List.find?_cons_of_pos t hb
      rw [List.find?_cons_of_pos _ (by simp [hf, hb]), hcons]
      rfl

/-- C1 (amended): both revisions of `sendChatMessageWithFallback` run their
tiers strictly sequentially, short-circuiting on the first tier that
succeeds, with no tier attempted twice and no parallel fan-out — each is
exactly the specification's short-circuit fold over its ordered tier list —
but only the three-tier revision of `src/src/utils/apiUtils.js` attempts
the shared gateway first, then the direct endpoint, then the mock; the
no-gateway revision folds over the direct endpoint alone before the mock
and never attempts the gateway. -/
theorem C1_tier_order :
    (∀ (modelType : ModelType) (messages : List ChatMsg) (env : ChatEnv),
      fallbackAttempts modelType messages env = claimedAttempts modelType messages env ∧
      sendChatMessageWithFallback modelType messages env
        = firstOkValue (tierOutcomes modelType messages env)
            (mockChatResponse modelType messages) ∧
      (fallbackAttempts modelType messages env).count Tier.gateway ≤ 1 ∧
      (fallbackAttempts modelType messages env).count Tier.direct ≤ 1 ∧
      (fallbackAttempts modelType messages env).count Tier.mock ≤ 1) ∧
    (∀ (modelType : ModelType) (messages : List ChatMsg) (env : ChatEnv),
      fallbackAttemptsNoGateway modelType messages env
        = firstOkAttempts (directTierOutcomes modelType messages env) ∧
      sendChatMessageWithFallbackNoGateway modelType messages env
        = firstOkValue (directTierOutcomes modelType messages env)
            (mockChatResponse modelType messages) ∧
      (fallbackAttemptsNoGateway modelType messages env).contains Tier.gateway = false) := by
  constructor
  · intro modelType messages env
    cases hg : sendChatMessage modelType messages env with
    | ok r =>
      refine ⟨?_, ?_, ?_, ?_, ?_⟩ <;>
        simp [fallbackAttempts, sendChatMessageWithFallback, claimedAttempts, tierOutcomes,
          firstOkAttempts, firstOkValue, Except.toOption, hg]
    | error e =>
      cases hd : sendChatMessageDirect modelType messages env with
      | ok r =>
        refine ⟨?_, ?_, ?_, ?_, ?_⟩ <;>
          simp [fallbackAttempts, sendChatMessageWithFallback, claimedAttempts, tierOutcomes,
            firstOkAttempts, firstOkValue, Except.toOption, hg, hd]
      | error e2 =>
        refine ⟨?_, ?_, ?_, ?_, ?_⟩ <;>
          simp [fallbackAttempts, sendChatMessageWithFallback, claimedAttempts, tierOutcomes,
            firstOkAttempts, firstOkValue, Except.toOption, hg, hd]
  · intro modelType messages env
    cases hd : sendChatMessageDirect modelType messages env with
    | ok r =>
      refine ⟨?_, ?_, ?_⟩ <;>
        simp [fallbackAttemptsNoGateway, sendChatMessageWithFallbackNoGateway,
          directTierOutcomes, firstOkAttempts, firstOkValue, Except.toOption, hd]
    | error e =>
      refine ⟨?_, ?_, ?_⟩ <;>
        simp [fallbackAttemptsNoGateway, sendChatMessageWithFallbackNoGateway,
          directTierOutcomes, firstOkAttempts, firstOkValue, Except.toOption, hd]

/-- C1 counterexample: at a concrete environment in which the shared
gateway would succeed, the no-gateway revision of send attempts only the
direct-endpoint tier; its attempt list is not the claimed gateway-first
list, so send, as the claim states it, does not attempt the gateway
first. -/
theorem C1_counterexample :
    fallbackAttemptsNoGateway ModelType.cognos [] c1Env = [Tier.direct] ∧
    fallbackAttemptsNoGateway ModelType.cognos [] c1Env
      ≠ claimedAttempts ModelType.cognos [] c1Env := by
  constructor <;> decide

/-- C2: when both network tiers fail, both revisions of send still resolve,
with the mock tier's reply, and that reply's content is never the empty
string. -/
theorem C2_mock_terminal (modelType : ModelType) (messages : List ChatMsg) (env : ChatEnv)
    (hg : env.gateway = none) (hd : env.direct = none) :
    sendChatMessageWithFallback modelType messages env = mockChatResponse modelType messages ∧
    sendChatMessageWithFallbackNoGateway modelType messages env
      = mockChatResponse modelType messages ∧
    (mockChatResponse modelType messages).reply.content ≠ "" := by
  refine ⟨?_, ?_, mock_reply_content_ne_empty modelType messages⟩ <;>
    simp [sendChatMessageWithFallback, sendChatMessageWithFallbackNoGateway,
      sendChatMessage, sendChatMessageDirect, hg, hd]

/-- Witness for C2: a concrete conversation and an environment in which
both network requests time out. -/
theorem C2_mock_terminal_witness :
    sendChatMessageWithFallback ModelType.cognos
        [{ role := "user", content := "please optimize it" }]
        { gateway := none, direct := none }
      = mockChatResponse ModelType.cognos
          [{ role := "user", content := "please optimize it" }] ∧
    sendChatMessageWithFallbackNoGateway ModelType.cognos
        [{ role := "user", content := "please optimize it" }]
        { gateway := none, direct := none }
      = mockChatResponse ModelType.cognos
          [{ role := "user", content := "please optimize it" }] ∧
    (mockChatResponse ModelType.cognos
        [{ role := "user", content := "please optimize it" }]).reply.content ≠ "" :=
  C2_mock_terminal ModelType.cognos
    [{ role := "user", content := "please optimize it" }]
    { gateway := none, direct := none } rfl rfl

/-- C5: the direct-endpoint adapter normalizes the upstream body in the
fixed detection order reply.content, then choices[0].message.content, then
generated_text, then response, then output, with the raw JSON rendering as
the final fallback, and wraps the extracted text as an assistant reply; in
particular an OpenAI-shaped body with content "X" yields the assistant
reply "X". -/
theorem C5_direct_normalization :
    (∀ (d : UpstreamData) (s : String), d.reply = some { content := some s } → s ≠ "" →
      adaptContent d = .ok s) ∧
    (∀ (d : UpstreamData) (c : UpstreamChoice) (rest : List UpstreamChoice)
        (m : UpstreamMessage),
      replyTruthy d = false → d.choices = some (c :: rest) → c.message = some m →
      adaptContent d = .ok m.content) ∧
    (∀ (d : UpstreamData) (s : String),
      replyTruthy d = false → choicesFirst d = none → d.generated_text = some s → s ≠ "" →
      adaptContent d = .ok s) ∧
    (∀ (d : UpstreamData) (s : String),
      replyTruthy d = false → choicesFirst d = none → jsTruthy d.generated_text = false →
      d.response = some s → s ≠ "" → adaptContent d = .ok s) ∧
    (∀ (d : UpstreamData) (s : String),
      replyTruthy d = false → choicesFirst d = none → jsTruthy d.generated_text = false →
      jsTruthy d.response = false → d.output = some s → s ≠ "" →
      adaptContent d = .ok s) ∧
    (∀ (d : UpstreamData),
      replyTruthy d = false → choicesFirst d = none → jsTruthy d.generated_text = false →
      jsTruthy d.response = false → jsTruthy d.output = false →
      adaptContent d = .ok d.rawJson) ∧
    sendChatMessageDirect ModelType.cognos [] { gateway := none, direct := some openAIUpstream }
      = .ok { reply := { role := "assistant", content := "X" } } := by
  refine ⟨?_, ?_, ?_, ?_, ?_, ?_, rfl⟩
  · intro d s hr hs
    have ht : replyTruthy d = true := by simp [replyTruthy, hr, jsTruthy, hs]
    simp [adaptContent, ht, hr]
  · intro d c rest m h1 h2 h3
    simp [adaptContent, h1, choicesFirst, h2, h3]
  · intro d s h1 h2 h3 hs
    have hgt : jsTruthy d.generated_text = true := by rw [h3]; simp [jsTruthy, hs]
    simp [adaptContent, h1, h2, hgt]
    rw [h3]
    rfl
  · intro d s h1 h2 h3 h4 hs
    have hre : jsTruthy d.response = true := by rw [h4]; simp [jsTruthy, hs]
    simp [adaptContent, h1, h2, h3, hre]
    rw [h4]
    rfl
  · intro d s h1 h2 h3 h4 h5 hs
    have hout : jsTruthy d.output = true := by rw [h5]; simp [jsTruthy, hs]
    simp [adaptContent, h1, h2, h3, h4, hout]
    rw [h5]
    rfl
  · intro d h1 h2 h3 h4 h5
    simp [adaptContent, h1, h2, h3, h4, h5]

/-- C3: updating a stored example's correction shifts the value that was
live immediately before: after updating the found example (current
correction "A") with "B", the persisted record holds previous "A" and
corrected "B"; updating the resulting collection again with "C" yields
previous "B" (not "A") and corrected "C". -/
theorem C3_correction_shift (coll : List Example) (exampleId bDax cDax : String) (e : Example)
    (hfind : coll.find? (fun x => x.id == exampleId) = some e) :
    ∃ coll₁ coll₂,
      updateCorrection coll exampleId bDax none = .ok coll₁ ∧
      coll₁.find? (fun x => x.id == exampleId)
        = some { e with previousDaxFormula := e.correctedDaxFormula,
                        correctedDaxFormula := bDax } ∧
      updateCorrection coll₁ exampleId cDax none = .ok coll₂ ∧
      coll₂.find? (fun x => x.id == exampleId)
        = some { e with previousDaxFormula := bDax, correctedDaxFormula := cDax } := by
  have hp := List.find?_some hfind
  have hany : coll.any (fun x => x.id == exampleId) = true :=
    List.any_eq_true.mpr ⟨e, List.mem_of_find?_eq_some hfind, hp⟩
  refine ⟨coll.map (fun x => if x.id == exampleId then applyCorrection bDax none x else x),
    (coll.map (fun x => if x.id == exampleId then applyCorrection bDax none x else x)).map
      (fun x => if x.id == exampleId then applyCorrection cDax none x else x),
    ?_, ?_, ?_, ?_⟩
  · unfold updateCorrection
    rw [if_pos hany]
  · rw [find?_map_ite coll exampleId (applyCorrection bDax none) (fun x => rfl), hfind]
    rfl
  · have hfind1 : (coll.map (fun x => if x.id == exampleId then applyCorrection bDax none x
        else x)).find? (fun x => x.id == exampleId)
        = some (applyCorrection bDax none e) := by
      rw [find?_map_ite coll exampleId (applyCorrection bDax none) (fun x => rfl), hfind]
      rfl
    have hp1 : ((applyCorrection bDax none e).id == exampleId) = true := hp
    have hany1 : (coll.map (fun x => if x.id == exampleId then applyCorrection bDax none x
        else x)).any (fun x => x.id == exampleId) = true :=
      List.any_eq_true.mpr
        ⟨applyCorrection bDax none e, List.mem_of_find?_eq_some hfind1, hp1⟩
    unfold updateCorrection
    rw [if_pos hany1]
  · have hfind1 : (coll.map (fun x => if x.id == exampleId then applyCorrection bDax none x
        else x)).find? (fun x => x.id == exampleId)
        = some (applyCorrection bDax none e) := by
      rw [find?_map_ite coll exampleId (applyCorrection bDax none) (fun x => rfl), hfind]
      rfl
    rw [find?_map_ite _ exampleId (applyCorrection cDax none) (fun x => rfl), hfind1]
    rfl

/-- Witness for C3: a one-element collection whose example holds corrected
formula "A"; the two successive updates persist previous "A" then previous
"B". -/
theorem C3_correction_shift_witness :
    ∃ coll₁ coll₂,
      updateCorrection [c3Example] "cognos-001" "B" none = .ok coll₁ ∧
      coll₁.find? (fun x => x.id == "cognos-001")
        = some { c3Example with previousDaxFormula := c3Example.correctedDaxFormula,
                                correctedDaxFormula := "B" } ∧
      updateCorrection coll₁ "cognos-001" "C" none = .ok coll₂ ∧
      coll₂.find? (fun x => x.id == "cognos-001")
        = some { c3Example with previousDaxFormula := "B", correctedDaxFormula := "C" } :=
  C3_correction_shift [c3Example] "cognos-001" "B" "C" c3Example (by rfl)

/-- C4: the stored collection never exceeds 10 records, and inserting an
11th example into a 10-element collection yields a 10-element collection in
which the previously-oldest element is absent and the new element is
present. -/
theorem C4_retention_cap (coll : List Example) (newExample oldest : Example)
    (hlen : coll.length = 10) (hhead : coll.head? = some oldest)
    (htail : oldest ∉ coll.tail) (hne : oldest ≠ newExample) :
    (addExampleBackend coll newExample).length = 10 ∧
    newExample ∈ addExampleBackend coll newExample ∧
    oldest ∉ addExampleBackend coll newExample ∧
    ∀ (c : List Example) (x : Example), (addExampleBackend c x).length ≤ 10 := by
  cases coll with
  | nil => exact absurd hlen (by decide)
  | cons a t =>
    have ha : a = oldest := by simpa using hhead
    subst ha
    have hlt : t.length = 9 := by simpa using hlen
    have hdrop : addExampleBackend (a :: t) newExample = t ++ [newExample] := by
      simp [addExampleBackend, applyRetentionCap, hlt]
    refine ⟨?_, ?_, ?_, ?_⟩
    · rw [hdrop]; simp [hlt]
    · rw [hdrop]; simp
    · rw [hdrop]
      intro hmem
      rcases List.mem_append.mp hmem with h | h
      · exact htail h
      · exact hne (by simpa using h)
    · intro c x
      unfold addExampleBackend applyRetentionCap
      by_cases h : (c ++ [x]).length > 10
      · rw [if_pos h, List.length_drop]
        omega
      · rw [if_neg h]
        omega

/-- Witness for C4: a concrete full collection of 10 distinct examples;
adding an 11th keeps the size at 10, drops the oldest and contains the new
one. -/
theorem C4_retention_cap_witness :
    (addExampleBackend c4Coll c4New).length = 10 ∧
    c4New ∈ addExampleBackend c4Coll c4New ∧
    c4Entry 1 ∉ addExampleBackend c4Coll c4New ∧
    ∀ (c : List Example) (x : Example), (addExampleBackend c x).length ≤ 10 :=
  C4_retention_cap c4Coll c4New (c4Entry 1) (by decide) (by decide) (by decide) (by decide)

/-- C9: an update that supplies no confidence score carries the found
example's existing score forward unchanged into the persisted record, and
an update that supplies one sets exactly that score. -/
theorem C9_confidence_carried (coll : List Example) (exampleId newDax : String) (e : Example)
    (hfind : coll.find? (fun x => x.id == exampleId) = some e) :
    (∃ coll', updateCorrection coll exampleId newDax none = .ok coll' ∧
      (coll'.find? (fun x => x.id == exampleId)).map (fun x => x.confidenceScore)
        = some e.confidenceScore) ∧
    (∀ s : Rat, ∃ coll', updateCorrection coll exampleId newDax (some s) = .ok coll' ∧
      (coll'.find? (fun x => x.id == exampleId)).map (fun x => x.confidenceScore)
        = some (some s)) := by
  have hp := List.find?_some hfind
  have hany : coll.any (fun x => x.id == exampleId) = true :=
    List.any_eq_true.mpr ⟨e, List.mem_of_find?_eq_some hfind, hp⟩
  constructor
  · refine ⟨coll.map (fun x => if x.id == exampleId then applyCorrection newDax none x
      else x), ?_, ?_⟩
    · unfold updateCorrection
      rw [if_pos hany]
    · rw [find?_map_ite coll exampleId (applyCorrection newDax none) (fun x => rfl), hfind]
      rfl
  · intro s
    refine ⟨coll.map (fun x => if x.id == exampleId then applyCorrection newDax (some s) x
      else x), ?_, ?_⟩
    · unfold updateCorrection
      rw [if_pos hany]
    · rw [find?_map_ite coll exampleId (applyCorrection newDax (some s)) (fun x => rfl), hfind]
      rfl

/-- Witness for C9: a one-element collection whose example carries score
17/20; a scoreless update keeps 17/20, a scored update replaces it. -/
theorem C9_confidence_carried_witness :
    (∃ coll', updateCorrection [c9Example] "mstr-001" "NEW" none = .ok coll' ∧
      (coll'.find? (fun x => x.id == "mstr-001")).map (fun x => x.confidenceScore)
        = some c9Example.confidenceScore) ∧
    (∀ s : Rat, ∃ coll', updateCorrection [c9Example] "mstr-001" "NEW" (some s) = .ok coll' ∧
      (coll'.find? (fun x => x.id == "mstr-001")).map (fun x => x.confidenceScore)
        = some (some s)) :=
  C9_confidence_carried [c9Example] "mstr-001" "NEW" c9Example (by rfl)

/-- C6: the add-example submit rejects any input whose source expression or
target DAX formula is empty after trimming, and every accepted input
creates an example whose id is the model type followed by a dash and the
millisecond timestamp, whose field values are trimmed, and whose corrected
formula is empty. -/
theorem C6_add_example_validation :
    ∀ (modelType : ModelType) (sourceExpression targetDaxFormula : String)
      (timestampMs : Nat),
      ((jsTrim sourceExpression = "" ∨ jsTrim targetDaxFormula = "") →
        handleSubmit modelType sourceExpression targetDaxFormula timestampMs = none) ∧
      (∀ ex, handleSubmit modelType sourceExpression targetDaxFormula timestampMs = some ex →
        ex.id = modelTypeStr modelType ++ "-" ++ toString timestampMs ∧
        ex.sourceExpression = jsTrim sourceExpression ∧
        ex.targetDaxFormula = jsTrim targetDaxFormula ∧
        ex.correctedDaxFormula = "") := by
  intro modelType sourceExpression targetDaxFormula timestampMs
  constructor
  · intro h
    rcases h with h | h <;> simp [handleSubmit, validateForm, h]
  · intro ex hex
    by_cases hv : validateForm sourceExpression targetDaxFormula = true
    · unfold handleSubmit at hex
      rw [if_pos hv] at hex
      cases hex
      exact ⟨rfl, rfl, rfl, rfl⟩
    · unfold handleSubmit at hex
      rw [if_neg hv] at hex
      exact absurd hex (by simp)

/-- C7 (amended): whenever neither the API fetch nor the static-file fetch
yields an OK parsed collection, the loader returns the built-in sample set
with every returned example flagged as dummy data. -/
theorem C7_sample_on_unavailable (modelType : ModelType) (env : LoadEnv)
    (hapi : fetchFailed env.api = true) (hfile : fetchFailed env.file = true) :
    loadExamples modelType env = getSampleData modelType true ∧
    (loadExamples modelType env).all (fun e => e.isDummyData) = true := by
  have hres : loadExamples modelType env = getSampleData modelType true := by
    rcases env with ⟨api, file⟩
    cases api <;> cases file <;>
      first
        | rfl
        | (exfalso; simp [fetchFailed] at hapi hfile)
  refine ⟨hres, ?_⟩
  rw [hres]
  cases modelType <;> decide

/-- Witness for C7: with the API responding non-2xx and the file request
timing out, loading yields exactly the flagged sample set. -/
theorem C7_sample_on_unavailable_witness :
    loadExamples ModelType.tableau
        { api := FetchOutcome.httpError, file := FetchOutcome.networkError }
      = getSampleData ModelType.tableau true ∧
    (loadExamples ModelType.tableau
        { api := FetchOutcome.httpError, file := FetchOutcome.networkError }).all
      (fun e => e.isDummyData) = true :=
  C7_sample_on_unavailable ModelType.tableau
    { api := FetchOutcome.httpError, file := FetchOutcome.networkError } rfl rfl

/-- C7 counterexample: when the API responds OK with an empty collection —
the claim's "both unavailable or empty" case — the loader returns the empty
list as-is; it does not substitute the flagged sample set. -/
theorem C7_counterexample :
    loadExamples ModelType.cognos
        { api := FetchOutcome.ok [], file := FetchOutcome.ok [] } = [] ∧
    loadExamples ModelType.cognos
        { api := FetchOutcome.ok [], file := FetchOutcome.ok [] }
      ≠ getSampleData ModelType.cognos true :=
  ⟨rfl, by decide⟩

/-- C8: evaluation of the code at the failing input. The add flow creates
the record without setting `isUserAdded`; after the record is persisted and
the collection is listed again — the API returning it even with
`isUserAdded` stored as true — the loader maps it to `isUserAdded = false`;
and no sample record ever carries `isUserAdded = true`. -/
theorem C8_user_added_flag_lost :
    (handleSubmit ModelType.cognos "SUM(Revenue)" "SUM([Revenue])" 1700000000000).map
        (fun ex => ex.isUserAdded) = some false ∧
    (loadExamples ModelType.cognos
        { api := FetchOutcome.ok [storedAddedRaw], file := FetchOutcome.httpError }).map
        (fun ex => ex.isUserAdded) = [false] ∧
    ∀ (modelType : ModelType) (flag : Bool),
      (getSampleData modelType flag).all (fun e => !e.isUserAdded) = true := by
  refine ⟨by decide, by decide, ?_⟩
  intro modelType flag
  cases modelType <;> cases flag <;> decide

/-- C10 (amended): the persistence wrappers are total — every outcome maps
to a result object — and `success` is true exactly when the request
completed with an OK response whose body parsed as JSON. -/
theorem C10_write_wrappers_total :
    ∀ (modelType : ModelType) (newExample : Example) (exampleId correctedDax : String)
      (env : HttpOutcome),
      (addExampleToFile modelType newExample env).success = completedOkParsed env ∧
      (updateCorrectedDax modelType exampleId correctedDax env).success
        = completedOkParsed env := by
  intro modelType newExample exampleId correctedDax env
  rcases env with ⟨ok, body⟩ | msg
  · cases ok <;> cases body <;> exact ⟨rfl, rfl⟩
  · exact ⟨rfl, rfl⟩

/-- C10 counterexample: on an OK response whose body fails to parse, the
wrapper reports `success = false` although the request did complete with an
OK response, refuting "success false exactly when the request did not
complete with an OK response". -/
theorem C10_counterexample :
    (addExampleToFile ModelType.cognos c10Example parseFailEnv).success
      ≠ completedOk parseFailEnv := by
  decide
